import Mathlib

set_option maxRecDepth 10000

/-!
Shallow embedding of the docker-unpack-bench benchmark scripts
(`scripts/run-benchmark.py` and `scripts/results-to-csv.py`).

Numeric values are modelled as rationals (`ℚ`): the Python code works on
floats, but every claim under scrutiny is about structural behaviour
(which samples enter an aggregate, which fields a record carries, which
multiplier a unit maps to), not about rounding, so exact arithmetic is
the faithful choice.  Python exceptions are modelled explicitly with
`Except`/`Option` where a claim is about raising behaviour.
-/

namespace UnpackBench

/-! ### Python string and number primitives -/

/-- The whitespace class stripped by Python's `str.strip()` and `float()`
(ASCII part: space, tab, newline, carriage return, vertical tab, form feed). -/
def isPySpace (c : Char) : Bool :=
  c = ' ' || c = '\t' || c = '\n' || c = '\r' || c = '\x0b' || c = '\x0c'

/-- Python `str.strip()` on ASCII input. -/
def pyStrip (s : String) : String :=
  String.mk (((s.data.dropWhile isPySpace).reverse.dropWhile isPySpace).reverse)

/-- Value of a list of decimal digit characters. -/
def digitsToNat (cs : List Char) : Nat :=
  cs.foldl (fun a c => 10 * a + (c.toNat - 48)) 0

/-- Parse an optionally signed run of decimal digits (whole input). -/
def parseSignedDigits (cs : List Char) : Option Int :=
  match cs with
  | '+' :: r => if r ≠ [] ∧ r.all Char.isDigit then some (digitsToNat r : Int) else none
  | '-' :: r => if r ≠ [] ∧ r.all Char.isDigit then some (-(digitsToNat r : Int)) else none
  | r => if r ≠ [] ∧ r.all Char.isDigit then some (digitsToNat r : Int) else none

/-- Python `int(str)`: strip whitespace, optional sign, decimal digits;
`none` models the `ValueError` raised on anything else. -/
def pyInt? (s : String) : Option Int :=
  parseSignedDigits (pyStrip s).data

/-- Parse the exponent suffix of a float literal: either nothing, or
`e`/`E` followed by an optionally signed digit run. -/
def parseExpPart (cs : List Char) : Option Int :=
  match cs with
  | [] => some 0
  | 'e' :: r => parseSignedDigits r
  | 'E' :: r => parseSignedDigits r
  | _ => none

/-- The syntactic pieces of a decimal float literal: sign, integer-part
digits, fraction-part digits, exponent. -/
structure PyDecimal where
  neg : Bool
  intPart : List Char
  fracPart : List Char
  exp : Int
deriving DecidableEq

/-- The syntax of Python `float(str)` on decimal literals: strip
whitespace, optional sign, digits with at most one decimal point (at
least one digit), optional exponent.  `none` models the `ValueError`
raised on anything else.  (The special tokens `inf`/`nan`, which never
occur in docker-stats output, are outside the rational model and also
map to `none`.) -/
def pyFloatParse? (s : String) : Option PyDecimal :=
  let cs := (pyStrip s).data
  let signed : Bool × List Char :=
    match cs with
    | '-' :: r => (true, r)
    | '+' :: r => (false, r)
    | _ => (false, cs)
  let ipSplit := signed.2.span Char.isDigit
  let fracSplit : List Char × List Char :=
    match ipSplit.2 with
    | '.' :: r => r.span Char.isDigit
    | r => ([], r)
  if ipSplit.1 = [] ∧ fracSplit.1 = [] then none
  else
    match parseExpPart fracSplit.2 with
    | none => none
    | some e => some ⟨signed.1, ipSplit.1, fracSplit.1, e⟩

/-- The rational value denoted by a decimal literal. -/
def PyDecimal.val (d : PyDecimal) : ℚ :=
  let mant : ℚ :=
    (digitsToNat d.intPart : ℚ) + (digitsToNat d.fracPart : ℚ) / (10 : ℚ) ^ d.fracPart.length
  let mag : ℚ :=
    if 0 ≤ d.exp then mant * (10 : ℚ) ^ d.exp.toNat else mant / (10 : ℚ) ^ (-d.exp).toNat
  if d.neg then -mag else mag

/-- Python `float(str)`: parse the literal and take its value. -/
def pyFloat? (s : String) : Option ℚ :=
  (pyFloatParse? s).map PyDecimal.val

/-! ### Unit normalisation (`BenchmarkRunner.parse_size_to_mb`) -/

/-- The `conversions` table of `parse_size_to_mb`, including the
`.get(unit, 1)` default for unknown units. -/
def convMult (u : String) : ℚ :=
  if u = "B" then 1 / (1024 * 1024)
  else if u = "KB" then 1 / 1024
  else if u = "KIB" then 1 / 1024
  else if u = "MB" then 1
  else if u = "MIB" then 1
  else if u = "GB" then 1024
  else if u = "GIB" then 1024
  else if u = "TB" then 1024 * 1024
  else if u = "TIB" then 1024 * 1024
  else 1

/-- The anchored match of `re.match(r'^([0-9.]+)\s*([A-Za-z]+)$', s)`:
a maximal nonempty run of digits/dots, optional whitespace, then a
nonempty all-ASCII-letter tail reaching the end of the string. -/
def sizeMatch? (s : String) : Option (String × String) :=
  let cs := s.data
  let numSplit := cs.span (fun c => c.isDigit || c = '.')
  let np := numSplit.1
  let unitPart := numSplit.2.dropWhile isPySpace
  if np ≠ [] ∧ unitPart ≠ [] ∧ unitPart.all (fun c => c.isAlpha) then
    some (String.mk np, String.mk unitPart)
  else none

/-- `BenchmarkRunner.parse_size_to_mb`: strip; return 0 for empty input or
the literal `0B`; return 0 when the regex does not match; parse the number
(a `ValueError`, e.g. for `1.2.3`, is caught and yields 0); multiply by the
unit table entry, defaulting to 1 for unknown units. -/
def parse_size_to_mb (sizeStr : String) : ℚ :=
  let s := pyStrip sizeStr
  if s = "" ∨ s = "0B" then 0
  else
    match sizeMatch? s with
    | none => 0
    | some (np, u) =>
      match pyFloat? np with
      | none => 0
      | some v => v * convMult u.toUpper

/-- Exception-level semantics of `parse_size_to_mb`: the body of the
`try` block propagates the `ValueError` from `float(...)`, and the
`except (ValueError, AttributeError)` clause turns it into the normal
return value `0.0`.  Every control path ends in `Except.ok`. -/
def parse_size_to_mb_sem (sizeStr : String) : Except String ℚ :=
  let s := pyStrip sizeStr
  if s = "" ∨ s = "0B" then Except.ok 0
  else
    let tryBody : Except String ℚ :=
      match sizeMatch? s with
      | none => Except.ok 0
      | some (np, u) =>
        match pyFloat? np with
        | none => Except.error "ValueError"
        | some v => Except.ok (v * convMult u.toUpper)
    match tryBody with
    | Except.ok q => Except.ok q
    | Except.error _ => Except.ok 0

/-! ### Resource snapshots and `BenchmarkRunner.analyze_stats` -/

/-- One docker-stats JSON object as consumed by `analyze_stats`.  Each
field models `stat.get(key, default)`: `none` means the key is absent and
the code's default string is used.  (The `timestamp` key added by
`collect_stats` is never read by `analyze_stats` and is omitted.) -/
structure Stat where
  CPUPerc : Option String := none
  MemUsage : Option String := none
  PIDs : Option String := none
  BlockIO : Option String := none
  NetIO : Option String := none
deriving DecidableEq

/-- `stat.get('CPUPerc', '0%').replace('%', '')`. -/
def cpuStr (s : Stat) : String :=
  (s.CPUPerc.getD "0%").replace "%" ""

/-- The CPU sample contributed by one snapshot: `float(cpu_str)` inside
`try`, with `except ValueError: pass` dropping the sample (`none`). -/
def cpuOf (s : Stat) : Option ℚ :=
  pyFloat? (cpuStr s)

/-- The memory sample: if `' / ' in mem_usage`, parse the part before the
separator, else the snapshot contributes nothing to the memory lists. -/
def memOf (s : Stat) : Option ℚ :=
  let parts := (s.MemUsage.getD "0B / 0B").splitOn " / "
  if 2 ≤ parts.length then some (parse_size_to_mb (parts.headD "")) else none

/-- The PID sample: `int(stat.get('PIDs', '0'))` guarded by
`except (ValueError, TypeError): pass`. -/
def pidOf (s : Stat) : Option Int :=
  pyInt? (s.PIDs.getD "0")

/-- `stat.get('BlockIO', '0B / 0B').split(' / ')`. -/
def bioParts (s : Stat) : List String :=
  (s.BlockIO.getD "0B / 0B").splitOn " / "

/-- Read half of the BlockIO pair (contributed only when the separator is
present). -/
def bioReadOf (s : Stat) : Option ℚ :=
  if 2 ≤ (bioParts s).length then some (parse_size_to_mb ((bioParts s).headD "")) else none

/-- Write half of the BlockIO pair. -/
def bioWriteOf (s : Stat) : Option ℚ :=
  if 2 ≤ (bioParts s).length then some (parse_size_to_mb ((bioParts s).getD 1 "")) else none

/-- `stat.get('NetIO', '0B / 0B').split(' / ')`. -/
def netParts (s : Stat) : List String :=
  (s.NetIO.getD "0B / 0B").splitOn " / "

/-- Received half of the NetIO pair. -/
def netRxOf (s : Stat) : Option ℚ :=
  if 2 ≤ (netParts s).length then some (parse_size_to_mb ((netParts s).headD "")) else none

/-- Transmitted half of the NetIO pair. -/
def netTxOf (s : Stat) : Option ℚ :=
  if 2 ≤ (netParts s).length then some (parse_size_to_mb ((netParts s).getD 1 "")) else none

/-- A snapshot raises inside `analyze_stats` exactly when a two-way tuple
unpacking `a, b = text.split(' / ')` sees three or more parts, i.e. the
separator occurs at least twice in BlockIO or NetIO (the CPU, memory and
PID parses are individually guarded and cannot escape). -/
def statRaises (s : Stat) : Bool :=
  2 < (bioParts s).length || 2 < (netParts s).length

/-- A value stored in the dict returned by `analyze_stats` (all metric
fields are numbers; the `except` branch stores an error string). -/
inductive StatVal where
  | num (q : ℚ)
  | str (s : String)
deriving DecidableEq

/-- A Python dict with string keys as produced by `analyze_stats`,
modelled as an association list in insertion order. -/
abbrev StatsDict := List (String × StatVal)

/-- `max(xs)` guarded by `if xs else 0`. -/
def pyMaxD : List ℚ → ℚ
  | [] => 0
  | x :: xs => xs.foldl max x

/-- `min(xs)` guarded by `if xs else 0`. -/
def pyMinD : List ℚ → ℚ
  | [] => 0
  | x :: xs => xs.foldl min x

/-- `sum(xs) / len(xs)` guarded by `if xs else 0`. -/
def pyAvgD (xs : List ℚ) : ℚ :=
  if xs = [] then 0 else xs.sum / (xs.length : ℚ)

/-- `max(xs)` over the integer PID list, guarded by `if xs else 0`. -/
def pyMaxIntD : List Int → Int
  | [] => 0
  | x :: xs => xs.foldl max x

/-- The dict literal returned by the `try` block of `analyze_stats`.  The
per-field lists built by the loop are the in-order parsable samples, i.e.
`filterMap` of the per-snapshot extractors. -/
def statsSummary (stats : List Stat) : StatsDict :=
  let cpuValues := stats.filterMap cpuOf
  let memoryValues := stats.filterMap memOf
  let pidValues := stats.filterMap pidOf
  let blockIoRead := stats.filterMap bioReadOf
  let blockIoWrite := stats.filterMap bioWriteOf
  let netIoRx := stats.filterMap netRxOf
  let netIoTx := stats.filterMap netTxOf
  [("cpu_peak_percent", StatVal.num (pyMaxD cpuValues)),
   ("cpu_avg_percent", StatVal.num (pyAvgD cpuValues)),
   ("memory_peak_mb", StatVal.num (pyMaxD memoryValues)),
   ("memory_avg_mb", StatVal.num (pyAvgD memoryValues)),
   ("pid_peak_count", StatVal.num ((pyMaxIntD pidValues : Int) : ℚ)),
   ("block_io_read_peak_mb", StatVal.num (pyMaxD blockIoRead)),
   ("block_io_write_peak_mb", StatVal.num (pyMaxD blockIoWrite)),
   ("block_io_total_write_mb", StatVal.num (blockIoWrite.getLastD 0)),
   ("net_io_rx_mb", StatVal.num (pyMaxD netIoRx)),
   ("net_io_tx_mb", StatVal.num (pyMaxD netIoTx)),
   ("samples_collected", StatVal.num (stats.length : ℚ))]

/-- `BenchmarkRunner.analyze_stats`: empty input short-circuits to the
empty dict `{}`; if any snapshot makes a tuple unpacking raise, the
`except` clause returns the error dict; otherwise the summary dict. -/
def analyze_stats (stats : List Stat) : StatsDict :=
  if stats.isEmpty then []
  else if stats.any statRaises then [("error", StatVal.str "Stats analysis failed")]
  else statsSummary stats

/-! ### Trial runner (`BenchmarkRunner.run_single_benchmark`)

The external `ctr image pull` invocation is the only effect that decides
the shape of the returned record; it is modelled as an input.  The
snapshots returned by `stop_monitoring()` and the measured wall-clock
duration are likewise inputs to the pure core. -/

/-- Outcome of a `subprocess.run` that finished within the timeout. -/
structure CompletedRun where
  returncode : Int
  stdout : String
  stderr : String
deriving DecidableEq

/-- Outcome of the external unpack invocation: either
`subprocess.TimeoutExpired` after 300 s, or completion with an exit
status. -/
inductive UnpackOutcome where
  | timeout
  | completed (r : CompletedRun)
deriving DecidableEq

/-- The per-trial external environment: the unpack outcome, the snapshot
list handed back by `stop_monitoring()`, and the elapsed wall-clock time
`end_time - start_time` (meaningful only when the unpack completed). -/
structure TrialEnv where
  unpack : UnpackOutcome
  statsData : List Stat
  elapsed : ℚ
deriving DecidableEq

/-- A value stored in a trial-record dict. -/
inductive TrialVal where
  | num (q : ℚ)
  | str (s : String)
  | bool (b : Bool)
  | metrics (d : StatsDict)
deriving DecidableEq

/-- A trial-record dict, as an association list in insertion order. -/
abbrev TrialDict := List (String × TrialVal)

/-- `BenchmarkRunner.run_single_benchmark`: on completion, the full
record (with `containerd_stderr` blanked on success); on
`TimeoutExpired`, the reduced record with `duration_seconds` pinned to
300 and `error: "timeout"`. -/
def run_single_benchmark (target : String) (runId : Nat) (env : TrialEnv) : TrialDict :=
  match env.unpack with
  | UnpackOutcome.completed r =>
    [("run_id", TrialVal.num (runId : ℚ)),
     ("success", TrialVal.bool (r.returncode == 0)),
     ("duration_seconds", TrialVal.num env.elapsed),
     ("target_image", TrialVal.str target),
     ("peak_metrics", TrialVal.metrics (analyze_stats env.statsData)),
     ("raw_stats_count", TrialVal.num (env.statsData.length : ℚ)),
     ("containerd_stdout", TrialVal.str r.stdout),
     ("containerd_stderr", TrialVal.str (if r.returncode == 0 then "" else r.stderr))]
  | UnpackOutcome.timeout =>
    [("run_id", TrialVal.num (runId : ℚ)),
     ("success", TrialVal.bool false),
     ("duration_seconds", TrialVal.num 300),
     ("target_image", TrialVal.str target),
     ("error", TrialVal.str "timeout")]

/-- `r.get('success', False)` under Python truthiness (the stored value is
always a real bool). -/
def successGet (r : TrialDict) : Bool :=
  match r.lookup "success" with
  | some (TrialVal.bool b) => b
  | _ => false

/-- `r['duration_seconds']` (present in every record produced by
`run_single_benchmark`). -/
def durationGet (r : TrialDict) : ℚ :=
  match r.lookup "duration_seconds" with
  | some (TrialVal.num q) => q
  | _ => 0

/-- Whether a trial environment yields a successful trial: completion
with exit status 0. -/
def envSuccess (e : TrialEnv) : Bool :=
  match e.unpack with
  | UnpackOutcome.completed r => r.returncode == 0
  | UnpackOutcome.timeout => false

/-- The duration recorded for a trial environment: the measured elapsed
time on completion, the enforced 300 s ceiling on timeout. -/
def envDuration (e : TrialEnv) : ℚ :=
  match e.unpack with
  | UnpackOutcome.completed _ => e.elapsed
  | UnpackOutcome.timeout => 300

/-! ### Suite orchestrator (`BenchmarkRunner.run_benchmark_suite`) -/

/-- The `for i in range(1, num_runs + 1)` trial loop, one environment per
trial, 1-based run ids. -/
def runTrials (target : String) (runId : Nat) : List TrialEnv → List TrialDict
  | [] => []
  | e :: rest => run_single_benchmark target runId e :: runTrials target (runId + 1) rest

/-- The `summary` sub-dict of the suite report. -/
structure SuiteSummary where
  successful_runs : Nat
  failed_runs : Nat
  avg_duration_seconds : ℚ
  min_duration_seconds : ℚ
  max_duration_seconds : ℚ
deriving DecidableEq

/-- The suite report: configuration echo, summary statistics, full run
list.  (The wall-clock `timestamp` of the configuration echo is an
external effect and is omitted.) -/
structure SuiteReport where
  target_image : String
  num_runs : Nat
  summary : SuiteSummary
  runs : List TrialDict
deriving DecidableEq

/-- `BenchmarkRunner.run_benchmark_suite` after a successful
`ensure_image_downloaded` (whose failure aborts the suite before any
trial): run the trials, filter `r.get('success', False)`, and compute the
duration statistics over the successful trials' `duration_seconds`. -/
def run_benchmark_suite (target : String) (envs : List TrialEnv) : SuiteReport :=
  let results := runTrials target 1 envs
  let successfulRuns := results.filter successGet
  let durations := successfulRuns.map durationGet
  { target_image := target
    num_runs := envs.length
    summary :=
      { successful_runs := successfulRuns.length
        failed_runs := results.length - successfulRuns.length
        avg_duration_seconds := pyAvgD durations
        min_duration_seconds := pyMinD durations
        max_duration_seconds := pyMaxD durations }
    runs := results }

/-! ### Report exporter (`scripts/results-to-csv.py`) -/

/-- `m.get(key, 0)` on a metrics dict, keeping only numeric values. -/
def statGetD (d : StatsDict) (k : String) : ℚ :=
  match d.lookup k with
  | some (StatVal.num q) => q
  | _ => 0

/-- One entry of a report's `runs` list, as read by the exporter:
`r.get('success', False)` and `r.get('peak_metrics', \x7b\x7d)` (a missing
metrics dict reads as the empty dict). -/
structure RunRec where
  success : Bool
  peak_metrics : StatsDict
deriving DecidableEq

/-- The fields `extract_basic_stats` projects out of a report that
`json.load` parsed: the `benchmark_config` and `summary` echoes (each
read with `.get` and a default) and the `runs` list. -/
structure ReportData where
  timestamp : String
  target_image : String
  num_runs : ℚ
  cpu_limit : String
  memory_limit : String
  successful_runs : ℚ
  failed_runs : ℚ
  avg_duration_seconds : ℚ
  min_duration_seconds : ℚ
  max_duration_seconds : ℚ
  runs : List RunRec
  filename : String
deriving DecidableEq

/-- An input file of the exporter: either `json.load` raises (malformed)
or it yields report data. -/
inductive ReportFile where
  | malformed (name : String)
  | parsed (d : ReportData)
deriving DecidableEq

/-- One column of the transposed CSV: the projection built by
`extract_basic_stats` for a report that is kept. -/
structure Row where
  timestamp : String
  target_image : String
  num_runs : ℚ
  cpu_limit : String
  memory_limit : String
  successful_runs : ℚ
  failed_runs : ℚ
  avg_duration_seconds : ℚ
  min_duration_seconds : ℚ
  max_duration_seconds : ℚ
  peak_cpu_percent : ℚ
  avg_cpu_percent : ℚ
  peak_memory_mb : ℚ
  avg_memory_mb : ℚ
  total_disk_write_mb : ℚ
  filename : String
deriving DecidableEq

/-- `extract_basic_stats`: result row (or `none` when the file is
skipped) paired with the diagnostics printed to stderr.  A `json.load`
failure lands in the `except` clause, which prints the diagnostic and
returns `None`; a parsed report with zero successful runs returns `None`
with no diagnostic; otherwise the peak/average metrics are computed
across the successful runs' `peak_metrics`. -/
def extract_basic_stats : ReportFile → Option Row × List String
  | ReportFile.malformed name => (none, ["Error processing " ++ name])
  | ReportFile.parsed d =>
    let successfulRuns := d.runs.filter (fun r => r.success)
    if successfulRuns.isEmpty then (none, [])
    else
      let allMetrics := successfulRuns.map (fun r => r.peak_metrics)
      (some
        { timestamp := d.timestamp
          target_image := d.target_image
          num_runs := d.num_runs
          cpu_limit := d.cpu_limit
          memory_limit := d.memory_limit
          successful_runs := d.successful_runs
          failed_runs := d.failed_runs
          avg_duration_seconds := d.avg_duration_seconds
          min_duration_seconds := d.min_duration_seconds
          max_duration_seconds := d.max_duration_seconds
          peak_cpu_percent := pyMaxD (allMetrics.map (fun m => statGetD m "cpu_peak_percent"))
          avg_cpu_percent := pyAvgD (allMetrics.map (fun m => statGetD m "cpu_avg_percent"))
          peak_memory_mb := pyMaxD (allMetrics.map (fun m => statGetD m "memory_peak_mb"))
          avg_memory_mb := pyAvgD (allMetrics.map (fun m => statGetD m "memory_avg_mb"))
          total_disk_write_mb := pyMaxD (allMetrics.map (fun m => statGetD m "block_io_total_write_mb"))
          filename := d.filename }, [])

/-- The per-file loop of the exporter's `main`: each file contributes its
column when `extract_basic_stats` keeps it, and its diagnostics either
way; the loop itself never aborts. -/
def exportColumns : List ReportFile → List Row × List String
  | [] => ([], [])
  | f :: rest =>
    let here := extract_basic_stats f
    let there := exportColumns rest
    (here.1.toList ++ there.1, here.2 ++ there.2)

/-! ### The spec's `normalize_percent` contract (for comparison with the
code's inlined CPU normalisation) -/

/-- Strip one trailing percent sign. -/
def stripTrailingPercent (s : String) : String :=
  if s.endsWith "%" then s.dropRight 1 else s

/-- Follows the spec's words, not the source: "Strips a trailing `%` and
parses the remainder as a float; returns 0.0 on parse failure."  The
source's inlined counterpart is `cpuOf`, which drops the sample instead
of producing 0. -/
def normalize_percent_spec (s : String) : ℚ :=
  match pyFloat? (stripTrailingPercent s) with
  | some v => v
  | none => 0

/-- Exception-level semantics of `float(...)`: `ValueError` on parse
failure. -/
def pyFloatSem (s : String) : Except String ℚ :=
  match pyFloat? s with
  | some v => Except.ok v
  | none => Except.error "ValueError"

/-- Exception-level semantics of the CPU-parsing step of `analyze_stats`:
`try: cpu_values.append(float(cpu_str)) except ValueError: pass`.  The
raised `ValueError` is caught and turned into "no sample". -/
def cpuStepSem (s : Stat) : Except String (Option ℚ) :=
  match pyFloatSem (cpuStr s) with
  | Except.ok v => Except.ok (some v)
  | Except.error _ => Except.ok none

/-! ### Well-formed snapshots and concrete instances -/

/-- The CPU percentage of a snapshot, defaulting to 0 for an unparsable
one (used to state properties of sequences of well-formed snapshots). -/
def cpuValD (s : Stat) : ℚ := (cpuOf s).getD 0

/-- The in-use memory (MB) of a snapshot, defaulting to 0. -/
def memValD (s : Stat) : ℚ := (memOf s).getD 0

/-- The block-I/O write value (MB) of a snapshot, defaulting to 0. -/
def writeValD (s : Stat) : ℚ := (bioWriteOf s).getD 0

/-- A well-formed snapshot: every field parses the way `analyze_stats`
expects — the CPU string is a float, MemUsage carries the separator, the
PID string is an integer, and BlockIO/NetIO split into exactly two
parts. -/
def wfStat (s : Stat) : Bool :=
  (cpuOf s).isSome && (memOf s).isSome && (pidOf s).isSome &&
    ((bioParts s).length == 2) && ((netParts s).length == 2)

/-- A concrete well-formed snapshot (values from the docstring examples). -/
def statA : Stat :=
  { CPUPerc := some "25.45%", MemUsage := some "150.1MiB / 31.33GiB", PIDs := some "12",
    BlockIO := some "1.56MB / 10.2MB", NetIO := some "648KB / 12KB" }

/-- A second concrete well-formed snapshot, whose write value is smaller
than `statA`'s. -/
def statB : Stat :=
  { CPUPerc := some "10%", MemUsage := some "100MiB / 31.33GiB", PIDs := some "8",
    BlockIO := some "2MB / 5MB", NetIO := some "1MB / 1MB" }

/-- A snapshot whose CPU string does not parse as a float (all other
fields take their defaults, which parse fine). -/
def statBadCpu : Stat :=
  { CPUPerc := some "bad", MemUsage := some "100MiB / 31.33GiB" }

/-- A trial environment for a timed-out unpack. -/
def envT : TrialEnv :=
  { unpack := UnpackOutcome.timeout, statsData := [], elapsed := 0 }

/-- A trial environment for an unpack that failed with exit status 1. -/
def envF : TrialEnv :=
  { unpack := UnpackOutcome.completed { returncode := 1, stdout := "", stderr := "boom" },
    statsData := [], elapsed := 7 }

/-- A trial environment for an unpack that succeeded in 10 s. -/
def envOk10 : TrialEnv :=
  { unpack := UnpackOutcome.completed { returncode := 0, stdout := "done", stderr := "" },
    statsData := [statA], elapsed := 10 }

/-- A trial environment for an unpack that succeeded in 20 s. -/
def envOk20 : TrialEnv :=
  { unpack := UnpackOutcome.completed { returncode := 0, stdout := "done", stderr := "" },
    statsData := [statB], elapsed := 20 }

/-- A parsed report all of whose trials failed. -/
def allFailedReport : ReportData :=
  { timestamp := "t0", target_image := "img", num_runs := 1, cpu_limit := "0",
    memory_limit := "0", successful_runs := 0, failed_runs := 1,
    avg_duration_seconds := 0, min_duration_seconds := 0, max_duration_seconds := 0,
    runs := [{ success := false, peak_metrics := [] }], filename := "benchmark_x.json" }

/-- A parsed report with one successful trial. -/
def goodReport : ReportData :=
  { timestamp := "t1", target_image := "img", num_runs := 1, cpu_limit := "0",
    memory_limit := "0", successful_runs := 1, failed_runs := 0,
    avg_duration_seconds := 12, min_duration_seconds := 12, max_duration_seconds := 12,
    runs := [{ success := true, peak_metrics := [("cpu_peak_percent", StatVal.num 50)] }],
    filename := "benchmark_a.json" }

/-- The exporter input used by the C9 witness: one malformed file, one
all-failed report, one well-formed report. -/
def cFiles : List ReportFile :=
  [ReportFile.malformed "bad.json", ReportFile.parsed allFailedReport,
   ReportFile.parsed goodReport]

/-! ### Helper lemmas -/

theorem le_foldl_max_init (xs : List ℚ) : ∀ a : ℚ, a ≤ xs.foldl max a := by
  induction xs with
  | nil => intro a; exact le_refl a
  | cons x t ih => intro a; exact le_trans (le_max_left a x) (ih (max a x))

theorem le_foldl_max_mem (xs : List ℚ) : ∀ (a x : ℚ), x ∈ xs → x ≤ xs.foldl max a := by
  induction xs with
  | nil => intro a x hx; cases hx
  | cons y t ih =>
    intro a x hx
    cases hx with
    | head => exact le_trans (le_max_right a y) (le_foldl_max_init t (max a y))
    | tail _ h => exact ih (max a y) x h

theorem foldl_max_mem (xs : List ℚ) : ∀ a : ℚ, xs.foldl max a = a ∨ xs.foldl max a ∈ xs := by
  induction xs with
  | nil => intro a; exact Or.inl rfl
  | cons y t ih =>
    intro a
    rcases ih (max a y) with h | h
    · rcases max_choice a y with h2 | h2
      · left; rw [List.foldl_cons, h, h2]
      · right; rw [List.foldl_cons, h, h2]; exact List.mem_cons_self y t
    · right; exact List.mem_cons_of_mem y h

theorem pyMaxD_mem (xs : List ℚ) (h : xs ≠ []) : pyMaxD xs ∈ xs := by
  cases xs with
  | nil => exact absurd rfl h
  | cons x t =>
    rcases foldl_max_mem t x with h1 | h1
    · show t.foldl max x ∈ x :: t
      rw [h1]; exact List.mem_cons_self x t
    · exact List.mem_cons_of_mem x h1

theorem le_pyMaxD (xs : List ℚ) (x : ℚ) (hx : x ∈ xs) : x ≤ pyMaxD xs := by
  cases xs with
  | nil => cases hx
  | cons y t =>
    show x ≤ t.foldl max y
    rcases List.mem_cons.mp hx with rfl | h
    · exact le_foldl_max_init t _
    · exact le_foldl_max_mem t y x h

theorem filterMap_eq_map_of_some {α β : Type} (f : α → Option β) (g : α → β) :
    ∀ l : List α, (∀ a ∈ l, f a = some (g a)) → l.filterMap f = l.map g := by
  intro l
  induction l with
  | nil => intro _; rfl
  | cons x t ih =>
    intro h
    rw [List.map_cons, List.filterMap_cons_some (h x (List.mem_cons_self x t)),
      ih (fun a ha => h a (List.mem_cons_of_mem x ha))]

theorem length_filterMap_lt_of_none {α β : Type} (f : α → Option β) :
    ∀ l : List α, (∃ a ∈ l, f a = none) → (l.filterMap f).length < l.length := by
  intro l
  induction l with
  | nil => rintro ⟨a, ha, _⟩; cases ha
  | cons x t ih =>
    rintro ⟨a, ha, hfa⟩
    rcases List.mem_cons.mp ha with rfl | hmem
    · rw [List.filterMap_cons_none hfa]
      exact Nat.lt_succ_of_le (List.length_filterMap_le f t)
    · cases hfx : f x with
      | none =>
        rw [List.filterMap_cons_none hfx]
        exact Nat.lt_succ_of_le (List.length_filterMap_le f t)
      | some b =>
        rw [List.filterMap_cons_some hfx]
        exact Nat.succ_lt_succ (ih ⟨a, hmem, hfa⟩)

theorem map_getLastD_of_ne_nil {α β : Type} (f : α → β) (l : List α) (h : l ≠ []) (d : β) :
    (l.map f).getLastD d = f (l.getLast h) := by
  rw [List.getLastD_eq_getLast?, List.getLast?_map, List.getLast?_eq_getLast l h]
  rfl

theorem isSome_eq_some_getD {α : Type} {o : Option α} (d : α) (h : o.isSome = true) :
    o = some (o.getD d) := by
  cases o with
  | none => cases h
  | some v => rfl

theorem wfStat_parts {s : Stat} (h : wfStat s = true) :
    (cpuOf s).isSome = true ∧ (memOf s).isSome = true ∧ (pidOf s).isSome = true ∧
      (bioParts s).length = 2 ∧ (netParts s).length = 2 := by
  simp only [wfStat, Bool.and_eq_true, beq_iff_eq] at h
  exact ⟨h.1.1.1.1, h.1.1.1.2, h.1.1.2, h.1.2, h.2⟩

theorem wfStat_cpuOf {s : Stat} (h : wfStat s = true) : cpuOf s = some (cpuValD s) :=
  isSome_eq_some_getD 0 (wfStat_parts h).1

theorem wfStat_memOf {s : Stat} (h : wfStat s = true) : memOf s = some (memValD s) :=
  isSome_eq_some_getD 0 (wfStat_parts h).2.1

theorem wfStat_bioWriteOf {s : Stat} (h : wfStat s = true) :
    bioWriteOf s = some (writeValD s) := by
  have h2 := (wfStat_parts h).2.2.2.1
  have hle : 2 ≤ (bioParts s).length := by omega
  have hs : (bioWriteOf s).isSome = true := by
    unfold bioWriteOf
    rw [if_pos hle]
    rfl
  exact isSome_eq_some_getD 0 hs

theorem wfStat_not_raises {s : Stat} (h : wfStat s = true) : statRaises s = false := by
  have h2 := (wfStat_parts h).2.2.2
  rw [statRaises, Bool.or_eq_false_iff]
  constructor
  · simp only [decide_eq_false_iff_not]
    omega
  · simp only [decide_eq_false_iff_not]
    omega

theorem analyze_stats_eq_summary (S : List Stat) (hne : S ≠ [])
    (hnr : ∀ s ∈ S, statRaises s = false) : analyze_stats S = statsSummary S := by
  have h1 : S.isEmpty = false := by
    cases S with
    | nil => exact absurd rfl hne
    | cons a l => rfl
  have h2 : S.any statRaises = false := by
    rw [List.any_eq_false]
    intro x hx
    simp [hnr x hx]
  rw [analyze_stats, h1, h2]
  rfl

theorem summary_lookup_cpu_peak (S : List Stat) :
    (statsSummary S).lookup "cpu_peak_percent" =
      some (StatVal.num (pyMaxD (S.filterMap cpuOf))) := rfl

theorem summary_lookup_cpu_avg (S : List Stat) :
    (statsSummary S).lookup "cpu_avg_percent" =
      some (StatVal.num (pyAvgD (S.filterMap cpuOf))) := rfl

theorem summary_lookup_memory_peak (S : List Stat) :
    (statsSummary S).lookup "memory_peak_mb" =
      some (StatVal.num (pyMaxD (S.filterMap memOf))) := rfl

theorem summary_lookup_memory_avg (S : List Stat) :
    (statsSummary S).lookup "memory_avg_mb" =
      some (StatVal.num (pyAvgD (S.filterMap memOf))) := rfl

theorem summary_lookup_write_peak (S : List Stat) :
    (statsSummary S).lookup "block_io_write_peak_mb" =
      some (StatVal.num (pyMaxD (S.filterMap bioWriteOf))) := rfl

theorem summary_lookup_total_write (S : List Stat) :
    (statsSummary S).lookup "block_io_total_write_mb" =
      some (StatVal.num ((S.filterMap bioWriteOf).getLastD 0)) := rfl

theorem summary_lookup_samples (S : List Stat) :
    (statsSummary S).lookup "samples_collected" =
      some (StatVal.num (S.length : ℚ)) := rfl

theorem pyAvgD_map_of_ne_nil (f : Stat → ℚ) {S : List Stat} (h : S ≠ []) :
    pyAvgD (S.map f) = (S.map f).sum / (S.length : ℚ) := by
  have hm : S.map f ≠ [] := by
    rw [Ne, List.map_eq_nil_iff]
    exact h
  rw [pyAvgD, if_neg hm, List.length_map]

theorem pyFloat_eq_val {s : String} {d : PyDecimal} (h : pyFloatParse? s = some d) :
    pyFloat? s = some d.val := by
  rw [pyFloat?, h]
  rfl

theorem parse_size_concrete (s np u : String) (d : PyDecimal)
    (h1 : pyStrip s ≠ "") (h2 : pyStrip s ≠ "0B")
    (h3 : sizeMatch? (pyStrip s) = some (np, u))
    (h4 : pyFloatParse? np = some d) :
    parse_size_to_mb s = d.val * convMult u.toUpper := by
  have hno : ¬(pyStrip s = "" ∨ pyStrip s = "0B") := by
    rintro (h | h)
    · exact h1 h
    · exact h2 h
  simp only [parse_size_to_mb, if_neg hno, h3, pyFloat_eq_val h4]

/-! ### C1: aggregation of the empty snapshot sequence -/

/-- C1 (counterexample): on the empty snapshot sequence `analyze_stats`
returns the empty dict `\x7b\x7d`, so the `cpu_peak_percent` field is absent —
it does not equal zero as the claim states. -/
theorem c1_counterexample :
    (analyze_stats ([] : List Stat)).lookup "cpu_peak_percent" ≠ some (StatVal.num 0) := by
  decide

/-- C1 (amended): for the empty snapshot sequence, `analyze_stats` raises
no exception and returns the empty dict, which contains no fields at all;
every metric therefore reads as zero only through a caller's lookup
default, not because a zero-valued field is present. -/
theorem c1_empty_gives_empty_dict : analyze_stats ([] : List Stat) = [] := rfl

/-! ### C6: size-string normalisation -/

/-- C6: `parse_size_to_mb` converts `<number><unit>` strings using the
multipliers B→1/1048576, KB/KiB→1/1024, MB/MiB→1, GB/GiB→1024,
TB/TiB→1048576 (case-insensitively, via upper-casing the unit), uses
multiplier 1 for any unrecognised unit, and returns 0 for the empty
string, the literal token `0B`, and any string whose stripped form fails
the number-then-letters pattern. -/
theorem c6_size_normalisation :
    parse_size_to_mb "" = 0 ∧
    parse_size_to_mb "0B" = 0 ∧
    (∀ s, sizeMatch? (pyStrip s) = none → parse_size_to_mb s = 0) ∧
    (∀ s np u v, pyStrip s ≠ "" → pyStrip s ≠ "0B" →
      sizeMatch? (pyStrip s) = some (np, u) → pyFloat? np = some v →
      parse_size_to_mb s = v * convMult u.toUpper) ∧
    convMult "B" = 1 / 1048576 ∧ convMult "KB" = 1 / 1024 ∧ convMult "KIB" = 1 / 1024 ∧
    convMult "MB" = 1 ∧ convMult "MIB" = 1 ∧ convMult "GB" = 1024 ∧ convMult "GIB" = 1024 ∧
    convMult "TB" = 1048576 ∧ convMult "TIB" = 1048576 ∧
    (∀ u, u ∉ (["B", "KB", "KIB", "MB", "MIB", "GB", "GIB", "TB", "TIB"] : List String) →
      convMult u = 1) ∧
    parse_size_to_mb "1.56MB" = (1.56 : ℚ) ∧
    parse_size_to_mb "2.3GiB" = (2355.2 : ℚ) ∧
    parse_size_to_mb "512KB" = (0.5 : ℚ) ∧
    parse_size_to_mb "garbage" = 0 := by
  refine ⟨by decide, by decide, ?_, ?_,
    by rw [show convMult "B" = 1 / (1024 * 1024) from rfl]; norm_num,
    by rfl, by rfl, by rfl, by rfl, by rfl, by rfl,
    by rw [show convMult "TB" = 1024 * 1024 from rfl]; norm_num,
    by rw [show convMult "TIB" = 1024 * 1024 from rfl]; norm_num,
    ?_, ?_, ?_, ?_, by decide⟩
  · intro s h
    simp only [parse_size_to_mb]
    split
    · rfl
    · simp only [h]
  · intro s np u v h1 h2 h3 h4
    have hno : ¬(pyStrip s = "" ∨ pyStrip s = "0B") := by
      rintro (h | h)
      · exact h1 h
      · exact h2 h
    simp only [parse_size_to_mb, if_neg hno, h3, h4]
  · intro u hu
    simp only [List.mem_cons, List.not_mem_nil, or_false, not_or] at hu
    obtain ⟨n1, n2, n3, n4, n5, n6, n7, n8, n9⟩ := hu
    unfold convMult
    rw [if_neg n1, if_neg n2, if_neg n3, if_neg n4, if_neg n5, if_neg n6, if_neg n7,
      if_neg n8, if_neg n9]
  · rw [parse_size_concrete "1.56MB" "1.56" "MB" ⟨false, ['1'], ['5', '6'], 0⟩
      (by with_unfolding_all decide) (by with_unfolding_all decide)
      (by with_unfolding_all decide) (by with_unfolding_all decide)]
    rw [show String.toUpper "MB" = "MB" from by with_unfolding_all decide]
    rw [show convMult "MB" = 1 from rfl]
    norm_num [PyDecimal.val, show digitsToNat ['1'] = 1 from by decide,
      show digitsToNat ['5', '6'] = 56 from by decide]
  · rw [parse_size_concrete "2.3GiB" "2.3" "GiB" ⟨false, ['2'], ['3'], 0⟩
      (by with_unfolding_all decide) (by with_unfolding_all decide)
      (by with_unfolding_all decide) (by with_unfolding_all decide)]
    rw [show String.toUpper "GiB" = "GIB" from by with_unfolding_all decide]
    rw [show convMult "GIB" = 1024 from rfl]
    norm_num [PyDecimal.val, show digitsToNat ['2'] = 2 from by decide,
      show digitsToNat ['3'] = 3 from by decide]
  · rw [parse_size_concrete "512KB" "512" "KB" ⟨false, ['5', '1', '2'], [], 0⟩
      (by with_unfolding_all decide) (by with_unfolding_all decide)
      (by with_unfolding_all decide) (by with_unfolding_all decide)]
    rw [show String.toUpper "KB" = "KB" from by with_unfolding_all decide]
    rw [show convMult "KB" = 1 / 1024 from rfl]
    norm_num [PyDecimal.val, show digitsToNat ['5', '1', '2'] = 512 from by decide,
      show digitsToNat ([] : List Char) = 0 from by decide]

/-- C6 (witness): concrete instances of the quantified parts of
`c6_size_normalisation`, at the unmatched input `garbage`, the matched
input `2.3GiB`, and the unknown unit `XY`. -/
theorem c6_witness :
    parse_size_to_mb "garbage" = 0 ∧
    parse_size_to_mb "2.3GiB" = (2.3 : ℚ) * convMult (String.toUpper "GiB") ∧
    convMult "XY" = 1 := by
  obtain ⟨-, -, hnm, hmm, -, -, -, -, -, -, -, -, -, hunk, -, -, -, -⟩ := c6_size_normalisation
  refine ⟨hnm "garbage" (by decide), ?_, hunk "XY" (by decide)⟩
  refine hmm "2.3GiB" "2.3" "GiB" (2.3 : ℚ) (by with_unfolding_all decide)
    (by with_unfolding_all decide) (by with_unfolding_all decide) ?_
  rw [pyFloat_eq_val (show pyFloatParse? "2.3" = some ⟨false, ['2'], ['3'], 0⟩ from
    by with_unfolding_all decide)]
  norm_num [PyDecimal.val, show digitsToNat ['2'] = 2 from by decide,
    show digitsToNat ['3'] = 3 from by decide]

/-! ### C7: totality of the normalizers -/

/-- C7 (counterexample): the spec's `normalize_percent` contract returns
0.0 on parse failure, but the code's inlined CPU normalisation records no
value at all for an unparsable percentage: on `bad` it yields `none`
rather than `some 0`; consequently, over the snapshots `10%` and `bad`
the average CPU is 10 (one sample), not the 5 that a recorded 0.0 would
give. -/
theorem c7_counterexample :
    normalize_percent_spec "bad" = 0 ∧
    cpuOf { CPUPerc := some "bad" } ≠ some (normalize_percent_spec "bad") ∧
    (analyze_stats [{ CPUPerc := some "10%" }, { CPUPerc := some "bad" }]).lookup
      "cpu_avg_percent" = some (StatVal.num 10) := by
  refine ⟨by with_unfolding_all decide, by with_unfolding_all decide, ?_⟩
  have h10 : cpuOf { CPUPerc := some "10%" } = some (PyDecimal.val ⟨false, ['1', '0'], [], 0⟩) := by
    rw [cpuOf, pyFloat_eq_val (show pyFloatParse? (cpuStr { CPUPerc := some "10%" }) =
      some ⟨false, ['1', '0'], [], 0⟩ from by with_unfolding_all decide)]
  have hbad : cpuOf { CPUPerc := some "bad" } = none := by with_unfolding_all decide
  have he := analyze_stats_eq_summary [{ CPUPerc := some "10%" }, { CPUPerc := some "bad" }]
    (by decide) (by with_unfolding_all decide)
  rw [he, summary_lookup_cpu_avg, List.filterMap_cons_some h10,
    List.filterMap_cons_none hbad, List.filterMap_nil]
  norm_num [pyAvgD, PyDecimal.val, show digitsToNat ['1', '0'] = 10 from by decide,
    show digitsToNat ([] : List Char) = 0 from rfl]

/-- C7 (amended): both normalizers are total and never raise on any input
string: the whole-function exception semantics of `parse_size_to_mb`
always ends in `Except.ok` (including on `1.2.3MB`, whose digits-and-dots
part makes `float` raise a caught `ValueError`), and the guarded CPU
parse always ends in `Except.ok`, recording the parsed float on success
and recording no sample — rather than 0.0 — on parse failure such as
`bad`. -/
theorem c7_normalizers_total :
    (∀ s, parse_size_to_mb_sem s = Except.ok (parse_size_to_mb s)) ∧
    (∀ st, cpuStepSem st = Except.ok (cpuOf st)) ∧
    parse_size_to_mb "1.2.3MB" = 0 ∧
    cpuOf { CPUPerc := some "bad" } = none ∧
    cpuOf { CPUPerc := some "25.45%" } = some (25.45 : ℚ) := by
  refine ⟨?_, ?_, by with_unfolding_all decide, by with_unfolding_all decide, ?_⟩
  · intro s
    simp only [parse_size_to_mb_sem, parse_size_to_mb]
    split
    · rfl
    · cases hm : sizeMatch? (pyStrip s) with
      | none => simp only [hm]
      | some p =>
        cases p with
        | mk np u =>
          cases hf : pyFloat? np with
          | none => simp only [hm, hf]
          | some v => simp only [hm, hf]
  · intro st
    unfold cpuStepSem pyFloatSem cpuOf
    cases pyFloat? (cpuStr st) with
    | none => rfl
    | some v => rfl
  · rw [cpuOf, pyFloat_eq_val (show pyFloatParse? (cpuStr { CPUPerc := some "25.45%" }) =
      some ⟨false, ['2', '5'], ['4', '5'], 0⟩ from by with_unfolding_all decide)]
    norm_num [PyDecimal.val, show digitsToNat ['2', '5'] = 25 from by decide,
      show digitsToNat ['4', '5'] = 45 from by decide]

/-! ### C5: peak and average for CPU and memory -/

/-- C5: for every non-empty sequence of well-formed snapshots, the
aggregate's `cpu_peak_percent` is the maximum of the per-snapshot CPU
percentages (it is a member of the value list and an upper bound of it)
and `cpu_avg_percent` is their arithmetic mean (sum over count), and the
analogous equations hold for the memory fields. -/
theorem c5_cpu_memory_peak_avg (S : List Stat) (hne : S ≠ [])
    (hwf : ∀ s ∈ S, wfStat s = true) :
    (analyze_stats S).lookup "cpu_peak_percent" =
      some (StatVal.num (pyMaxD (S.map cpuValD))) ∧
    (analyze_stats S).lookup "cpu_avg_percent" =
      some (StatVal.num ((S.map cpuValD).sum / (S.length : ℚ))) ∧
    (analyze_stats S).lookup "memory_peak_mb" =
      some (StatVal.num (pyMaxD (S.map memValD))) ∧
    (analyze_stats S).lookup "memory_avg_mb" =
      some (StatVal.num ((S.map memValD).sum / (S.length : ℚ))) ∧
    pyMaxD (S.map cpuValD) ∈ S.map cpuValD ∧
    (∀ q ∈ S.map cpuValD, q ≤ pyMaxD (S.map cpuValD)) ∧
    pyMaxD (S.map memValD) ∈ S.map memValD ∧
    (∀ q ∈ S.map memValD, q ≤ pyMaxD (S.map memValD)) := by
  have hcpu : S.filterMap cpuOf = S.map cpuValD :=
    filterMap_eq_map_of_some cpuOf cpuValD S (fun a ha => wfStat_cpuOf (hwf a ha))
  have hmem : S.filterMap memOf = S.map memValD :=
    filterMap_eq_map_of_some memOf memValD S (fun a ha => wfStat_memOf (hwf a ha))
  have he := analyze_stats_eq_summary S hne (fun s hs => wfStat_not_raises (hwf s hs))
  have hm1 : S.map cpuValD ≠ [] := by
    rw [Ne, List.map_eq_nil_iff]
    exact hne
  have hm2 : S.map memValD ≠ [] := by
    rw [Ne, List.map_eq_nil_iff]
    exact hne
  refine ⟨?_, ?_, ?_, ?_, pyMaxD_mem _ hm1, fun q hq => le_pyMaxD _ q hq,
    pyMaxD_mem _ hm2, fun q hq => le_pyMaxD _ q hq⟩
  · rw [he, summary_lookup_cpu_peak, hcpu]
  · rw [he, summary_lookup_cpu_avg, hcpu, pyAvgD_map_of_ne_nil cpuValD hne]
  · rw [he, summary_lookup_memory_peak, hmem]
  · rw [he, summary_lookup_memory_avg, hmem, pyAvgD_map_of_ne_nil memValD hne]

/-- C5 (witness): instantiation at the well-formed two-snapshot sequence
`[statA, statB]`, with the CPU peak evaluated to the concrete 25.45. -/
theorem c5_witness :
    (analyze_stats [statA, statB]).lookup "cpu_peak_percent" =
      some (StatVal.num (pyMaxD ([statA, statB].map cpuValD))) ∧
    pyMaxD ([statA, statB].map cpuValD) = (25.45 : ℚ) ∧
    (analyze_stats [statA, statB]).lookup "cpu_avg_percent" =
      some (StatVal.num (([statA, statB].map cpuValD).sum /
        ((([statA, statB] : List Stat).length : ℕ) : ℚ))) := by
  have h := c5_cpu_memory_peak_avg [statA, statB] (by decide) (by with_unfolding_all decide)
  have hA : cpuValD statA = (25.45 : ℚ) := by
    rw [cpuValD, cpuOf, pyFloat_eq_val (show pyFloatParse? (cpuStr statA) =
      some ⟨false, ['2', '5'], ['4', '5'], 0⟩ from by with_unfolding_all decide),
      Option.getD_some]
    norm_num [PyDecimal.val, show digitsToNat ['2', '5'] = 25 from by decide,
      show digitsToNat ['4', '5'] = 45 from by decide]
  have hB : cpuValD statB = 10 := by
    rw [cpuValD, cpuOf, pyFloat_eq_val (show pyFloatParse? (cpuStr statB) =
      some ⟨false, ['1', '0'], [], 0⟩ from by with_unfolding_all decide),
      Option.getD_some]
    norm_num [PyDecimal.val, show digitsToNat ['1', '0'] = 10 from by decide,
      show digitsToNat ([] : List Char) = 0 from rfl]
  refine ⟨h.1, ?_, h.2.1⟩
  rw [show ([statA, statB].map cpuValD) = [cpuValD statA, cpuValD statB] from rfl, hA, hB,
    show pyMaxD [(25.45 : ℚ), 10] = max (25.45 : ℚ) 10 from rfl,
    max_eq_left (by norm_num)]

/-! ### C3: total write is the last sample, peak write is the maximum -/

/-- C3: for every non-empty sequence of well-formed snapshots, the
aggregate's `block_io_total_write_mb` is the write value of the LAST
snapshot while `block_io_write_peak_mb` is the maximum write value; the
two fields differ whenever the last write value is not the maximum. -/
theorem c3_total_write_is_last (S : List Stat) (hne : S ≠ [])
    (hwf : ∀ s ∈ S, wfStat s = true) :
    (analyze_stats S).lookup "block_io_total_write_mb" =
      some (StatVal.num (writeValD (S.getLast hne))) ∧
    (analyze_stats S).lookup "block_io_write_peak_mb" =
      some (StatVal.num (pyMaxD (S.map writeValD))) ∧
    (writeValD (S.getLast hne) ≠ pyMaxD (S.map writeValD) →
      (analyze_stats S).lookup "block_io_total_write_mb" ≠
        (analyze_stats S).lookup "block_io_write_peak_mb") := by
  have hw : S.filterMap bioWriteOf = S.map writeValD :=
    filterMap_eq_map_of_some bioWriteOf writeValD S (fun a ha => wfStat_bioWriteOf (hwf a ha))
  have he := analyze_stats_eq_summary S hne (fun s hs => wfStat_not_raises (hwf s hs))
  have h1 : (analyze_stats S).lookup "block_io_total_write_mb" =
      some (StatVal.num (writeValD (S.getLast hne))) := by
    rw [he, summary_lookup_total_write, hw, map_getLastD_of_ne_nil writeValD S hne]
  have h2 : (analyze_stats S).lookup "block_io_write_peak_mb" =
      some (StatVal.num (pyMaxD (S.map writeValD))) := by
    rw [he, summary_lookup_write_peak, hw]
  refine ⟨h1, h2, ?_⟩
  intro hdiff heq
  rw [h1, h2] at heq
  exact hdiff (StatVal.num.inj (Option.some.inj heq))

/-- C3 (witness): on `[statA, statB]` the last write value is 5 while the
peak is 10.2, and the two reported fields indeed differ. -/
theorem c3_witness :
    (analyze_stats [statA, statB]).lookup "block_io_total_write_mb" =
      some (StatVal.num 5) ∧
    (analyze_stats [statA, statB]).lookup "block_io_write_peak_mb" =
      some (StatVal.num (10.2 : ℚ)) ∧
    (analyze_stats [statA, statB]).lookup "block_io_total_write_mb" ≠
      (analyze_stats [statA, statB]).lookup "block_io_write_peak_mb" := by
  have hne2 : ([statA, statB] : List Stat) ≠ [] := by decide
  have h := c3_total_write_is_last [statA, statB] hne2 (by with_unfolding_all decide)
  have hlast : [statA, statB].getLast hne2 = statB := rfl
  have hA : writeValD statA = (10.2 : ℚ) := by
    have hparts : bioParts statA = ["1.56MB", "10.2MB"] := by with_unfolding_all decide
    have hb : bioWriteOf statA = some (parse_size_to_mb "10.2MB") := by
      rw [bioWriteOf, hparts]
      rfl
    rw [writeValD, hb, Option.getD_some,
      parse_size_concrete "10.2MB" "10.2" "MB" ⟨false, ['1', '0'], ['2'], 0⟩
        (by with_unfolding_all decide) (by with_unfolding_all decide)
        (by with_unfolding_all decide) (by with_unfolding_all decide),
      show String.toUpper "MB" = "MB" from by with_unfolding_all decide,
      show convMult "MB" = 1 from rfl]
    norm_num [PyDecimal.val, show digitsToNat ['1', '0'] = 10 from by decide,
      show digitsToNat ['2'] = 2 from by decide]
  have hB : writeValD statB = 5 := by
    have hparts : bioParts statB = ["2MB", "5MB"] := by with_unfolding_all decide
    have hb : bioWriteOf statB = some (parse_size_to_mb "5MB") := by
      rw [bioWriteOf, hparts]
      rfl
    rw [writeValD, hb, Option.getD_some,
      parse_size_concrete "5MB" "5" "MB" ⟨false, ['5'], [], 0⟩
        (by with_unfolding_all decide) (by with_unfolding_all decide)
        (by with_unfolding_all decide) (by with_unfolding_all decide),
      show String.toUpper "MB" = "MB" from by with_unfolding_all decide,
      show convMult "MB" = 1 from rfl]
    norm_num [PyDecimal.val, show digitsToNat ['5'] = 5 from by decide,
      show digitsToNat ([] : List Char) = 0 from rfl]
  have hmax : pyMaxD ([statA, statB].map writeValD) = (10.2 : ℚ) := by
    rw [show ([statA, statB].map writeValD) = [writeValD statA, writeValD statB] from rfl,
      hA, hB, show pyMaxD [(10.2 : ℚ), 5] = max (10.2 : ℚ) 5 from rfl,
      max_eq_left (by norm_num)]
  refine ⟨?_, ?_, ?_⟩
  · rw [h.1, hlast, hB]
  · rw [h.2.1, hmax]
  · refine h.2.2 ?_
    rw [hlast, hB, hmax]
    norm_num

/-! ### C10: per-field exclusion of unparsable samples -/

/-- C10: in `analyze_stats` (over snapshots that raise nothing), each
field's statistics are computed over only the samples parsable for that
field (`filterMap` of the per-field extractor, so an unparsable CPU
string contributes nothing rather than a zero), different fields may
therefore aggregate different sample counts, and `samples_collected`
still counts every raw snapshot. -/
theorem c10_per_field_sample_exclusion (S : List Stat) (hne : S ≠ [])
    (hnr : ∀ s ∈ S, statRaises s = false) :
    (analyze_stats S).lookup "cpu_peak_percent" =
      some (StatVal.num (pyMaxD (S.filterMap cpuOf))) ∧
    (analyze_stats S).lookup "cpu_avg_percent" =
      some (StatVal.num (pyAvgD (S.filterMap cpuOf))) ∧
    (analyze_stats S).lookup "memory_avg_mb" =
      some (StatVal.num (pyAvgD (S.filterMap memOf))) ∧
    (analyze_stats S).lookup "samples_collected" =
      some (StatVal.num (S.length : ℚ)) ∧
    ((∃ s ∈ S, cpuOf s = none) → (S.filterMap cpuOf).length < S.length) := by
  have he := analyze_stats_eq_summary S hne hnr
  exact ⟨by rw [he, summary_lookup_cpu_peak], by rw [he, summary_lookup_cpu_avg],
    by rw [he, summary_lookup_memory_avg], by rw [he, summary_lookup_samples],
    length_filterMap_lt_of_none cpuOf S⟩

/-- C10 (witness): over `[statA, statBadCpu]` the CPU list is strictly
shorter than the snapshot list (the `bad` CPU sample is dropped), the
memory list still has both samples, and `samples_collected` is the raw
count. -/
theorem c10_witness :
    (analyze_stats [statA, statBadCpu]).lookup "samples_collected" =
      some (StatVal.num ((([statA, statBadCpu] : List Stat).length : ℕ) : ℚ)) ∧
    ([statA, statBadCpu].filterMap cpuOf).length <
      ([statA, statBadCpu] : List Stat).length ∧
    ([statA, statBadCpu].filterMap memOf).length = 2 := by
  have h := c10_per_field_sample_exclusion [statA, statBadCpu] (by decide)
    (by with_unfolding_all decide)
  refine ⟨h.2.2.2.1, h.2.2.2.2 ⟨statBadCpu, by simp, by with_unfolding_all decide⟩, ?_⟩
  with_unfolding_all decide

/-! ### C2: suite summary over successful trials only -/

theorem successGet_run_single (t : String) (i : Nat) (e : TrialEnv) :
    successGet (run_single_benchmark t i e) = envSuccess e := by
  obtain ⟨u, sd, el⟩ := e
  cases u with
  | timeout => rfl
  | completed r => rfl

theorem durationGet_run_single (t : String) (i : Nat) (e : TrialEnv) :
    durationGet (run_single_benchmark t i e) = envDuration e := by
  obtain ⟨u, sd, el⟩ := e
  cases u with
  | timeout => rfl
  | completed r => rfl

theorem runTrials_length (t : String) : ∀ (envs : List TrialEnv) (i : Nat),
    (runTrials t i envs).length = envs.length := by
  intro envs
  induction envs with
  | nil => intro i; rfl
  | cons e rest ih =>
    intro i
    simp [runTrials, ih (i + 1)]

theorem runTrials_filter_map (t : String) : ∀ (envs : List TrialEnv) (i : Nat),
    ((runTrials t i envs).filter successGet).map durationGet =
      (envs.filter envSuccess).map envDuration := by
  intro envs
  induction envs with
  | nil => intro i; rfl
  | cons e rest ih =>
    intro i
    simp only [runTrials, List.filter_cons, successGet_run_single]
    cases hs : envSuccess e with
    | false => simpa [hs] using ih (i + 1)
    | true => simp [hs, durationGet_run_single, ih (i + 1)]

/-- C2: the suite summary is computed only over successful trials —
`successful_runs` counts the trials whose unpack completed with status 0,
`failed_runs` counts the rest, the three duration statistics range over
the successful trials' durations only, and an all-failed suite yields
zero-valued duration statistics rather than an error. -/
theorem c2_suite_summary (target : String) (envs : List TrialEnv) :
    (run_benchmark_suite target envs).summary.successful_runs =
      (envs.filter envSuccess).length ∧
    (run_benchmark_suite target envs).summary.failed_runs =
      envs.length - (envs.filter envSuccess).length ∧
    (run_benchmark_suite target envs).summary.min_duration_seconds =
      pyMinD ((envs.filter envSuccess).map envDuration) ∧
    (run_benchmark_suite target envs).summary.avg_duration_seconds =
      pyAvgD ((envs.filter envSuccess).map envDuration) ∧
    (run_benchmark_suite target envs).summary.max_duration_seconds =
      pyMaxD ((envs.filter envSuccess).map envDuration) ∧
    (envs.filter envSuccess = [] →
      (run_benchmark_suite target envs).summary.min_duration_seconds = 0 ∧
      (run_benchmark_suite target envs).summary.avg_duration_seconds = 0 ∧
      (run_benchmark_suite target envs).summary.max_duration_seconds = 0) := by
  have hm := runTrials_filter_map target envs 1
  have hlen := runTrials_length target envs 1
  have hcount : ((runTrials target 1 envs).filter successGet).length =
      (envs.filter envSuccess).length := by
    have h2 := congrArg List.length hm
    simpa using h2
  have hmin : (run_benchmark_suite target envs).summary.min_duration_seconds =
      pyMinD ((envs.filter envSuccess).map envDuration) := by
    show pyMinD (((runTrials target 1 envs).filter successGet).map durationGet) = _
    rw [hm]
  have havg : (run_benchmark_suite target envs).summary.avg_duration_seconds =
      pyAvgD ((envs.filter envSuccess).map envDuration) := by
    show pyAvgD (((runTrials target 1 envs).filter successGet).map durationGet) = _
    rw [hm]
  have hmax : (run_benchmark_suite target envs).summary.max_duration_seconds =
      pyMaxD ((envs.filter envSuccess).map envDuration) := by
    show pyMaxD (((runTrials target 1 envs).filter successGet).map durationGet) = _
    rw [hm]
  refine ⟨hcount, ?_, hmin, havg, hmax, ?_⟩
  · show (runTrials target 1 envs).length -
      ((runTrials target 1 envs).filter successGet).length = _
    rw [hlen, hcount]
  · intro h
    rw [hmin, havg, hmax, h]
    exact ⟨rfl, rfl, rfl⟩

/-- C2 (witness): a suite of one timeout and one non-zero exit has zero
successful runs, two failed runs, and zero-valued duration statistics. -/
theorem c2_witness :
    (run_benchmark_suite "img" [envT, envF]).summary.successful_runs = 0 ∧
    (run_benchmark_suite "img" [envT, envF]).summary.failed_runs = 2 ∧
    (run_benchmark_suite "img" [envT, envF]).summary.avg_duration_seconds = 0 ∧
    (run_benchmark_suite "img" [envT, envF]).summary.min_duration_seconds = 0 := by
  have h := c2_suite_summary "img" [envT, envF]
  have hz := h.2.2.2.2.2 (by decide)
  refine ⟨?_, ?_, hz.2.1, hz.1⟩
  · rw [h.1]
    decide
  · rw [h.2.1]
    decide

/-! ### C4: per-trial outcome classification -/

/-- C4: a trial is classified successful exactly when the unpack
completed with exit status 0 within the timeout; a timeout yields
`success = false`, error classification `timeout` and a reported duration
of exactly 300 s; a non-zero exit yields `success = false` with the
operation's stderr recorded. -/
theorem c4_outcome_classification (t : String) (i : Nat) (e : TrialEnv) :
    (successGet (run_single_benchmark t i e) = true ↔
      (∃ r, e.unpack = UnpackOutcome.completed r ∧ r.returncode = 0)) ∧
    (e.unpack = UnpackOutcome.timeout →
      (run_single_benchmark t i e).lookup "success" = some (TrialVal.bool false) ∧
      (run_single_benchmark t i e).lookup "error" = some (TrialVal.str "timeout") ∧
      (run_single_benchmark t i e).lookup "duration_seconds" =
        some (TrialVal.num 300)) ∧
    (∀ r, e.unpack = UnpackOutcome.completed r → r.returncode ≠ 0 →
      (run_single_benchmark t i e).lookup "success" = some (TrialVal.bool false) ∧
      (run_single_benchmark t i e).lookup "containerd_stderr" =
        some (TrialVal.str r.stderr)) := by
  obtain ⟨u, sd, el⟩ := e
  cases u with
  | timeout =>
    refine ⟨?_, fun _ => ⟨rfl, rfl, rfl⟩, fun r hr => UnpackOutcome.noConfusion hr⟩
    constructor
    · intro h
      rw [show successGet (run_single_benchmark t i
        ⟨UnpackOutcome.timeout, sd, el⟩) = false from rfl] at h
      exact absurd h (by decide)
    · rintro ⟨r, hr, -⟩
      exact UnpackOutcome.noConfusion hr
  | completed r =>
    refine ⟨?_, fun habs => UnpackOutcome.noConfusion habs, ?_⟩
    · rw [show successGet (run_single_benchmark t i
        ⟨UnpackOutcome.completed r, sd, el⟩) = (r.returncode == 0) from rfl]
      constructor
      · intro h
        exact ⟨r, rfl, by simpa using h⟩
      · rintro ⟨r', hr', hz⟩
        have hr2 : r' = r := (UnpackOutcome.completed.inj hr').symm
        subst hr2
        simpa using hz
    · rintro r' hr' hnz
      have hr2 : r' = r := (UnpackOutcome.completed.inj hr').symm
      subst hr2
      have hb : (r'.returncode == 0) = false := by simpa using hnz
      constructor
      · show some (TrialVal.bool (r'.returncode == 0)) = some (TrialVal.bool false)
        rw [hb]
      · show some (TrialVal.str (if r'.returncode == 0 then "" else r'.stderr)) =
          some (TrialVal.str r'.stderr)
        rw [hb]
        rfl

/-- C4 (witness): the timeout record of `envT` and the failed record of
`envF`, with the classification fields evaluated. -/
theorem c4_witness :
    (run_single_benchmark "img" 1 envT).lookup "error" =
      some (TrialVal.str "timeout") ∧
    (run_single_benchmark "img" 1 envT).lookup "duration_seconds" =
      some (TrialVal.num 300) ∧
    (run_single_benchmark "img" 2 envF).lookup "success" =
      some (TrialVal.bool false) ∧
    (run_single_benchmark "img" 2 envF).lookup "containerd_stderr" =
      some (TrialVal.str "boom") := by
  have h1 := (c4_outcome_classification "img" 1 envT).2.1 rfl
  have h2 := (c4_outcome_classification "img" 2 envF).2.2
    { returncode := 1, stdout := "", stderr := "boom" } rfl (by decide)
  exact ⟨h1.2.1, h1.2.2, h2.1, h2.2⟩

/-! ### C8: fields of a trial record -/

/-- C8 (counterexample): the record returned for a timed-out trial lacks
both the PeakMetrics aggregate and the raw sample count, contradicting
the claim that every trial record contains them. -/
theorem c8_counterexample :
    (run_single_benchmark "img" 1
      { unpack := UnpackOutcome.timeout, statsData := [], elapsed := 0 }).lookup
      "peak_metrics" = none ∧
    (run_single_benchmark "img" 1
      { unpack := UnpackOutcome.timeout, statsData := [], elapsed := 0 }).lookup
      "raw_stats_count" = none := ⟨rfl, rfl⟩

/-- C8 (amended): every trial record contains the 1-based run id, the
success flag, the duration and the target image; records of completed
trials (successful or not) additionally contain the PeakMetrics
aggregate and the raw sample count, while timed-out records omit those
two fields and instead carry the `timeout` error classification. -/
theorem c8_trial_record_fields (t : String) (i : Nat) (e : TrialEnv) :
    (run_single_benchmark t i e).lookup "run_id" = some (TrialVal.num (i : ℚ)) ∧
    (run_single_benchmark t i e).lookup "success" =
      some (TrialVal.bool (envSuccess e)) ∧
    (run_single_benchmark t i e).lookup "duration_seconds" =
      some (TrialVal.num (envDuration e)) ∧
    (run_single_benchmark t i e).lookup "target_image" = some (TrialVal.str t) ∧
    (∀ r, e.unpack = UnpackOutcome.completed r →
      (run_single_benchmark t i e).lookup "peak_metrics" =
        some (TrialVal.metrics (analyze_stats e.statsData)) ∧
      (run_single_benchmark t i e).lookup "raw_stats_count" =
        some (TrialVal.num (e.statsData.length : ℚ))) ∧
    (e.unpack = UnpackOutcome.timeout →
      (run_single_benchmark t i e).lookup "peak_metrics" = none ∧
      (run_single_benchmark t i e).lookup "raw_stats_count" = none ∧
      (run_single_benchmark t i e).lookup "error" = some (TrialVal.str "timeout")) := by
  obtain ⟨u, sd, el⟩ := e
  cases u with
  | timeout =>
    exact ⟨rfl, rfl, rfl, rfl, fun r hr => UnpackOutcome.noConfusion hr,
      fun _ => ⟨rfl, rfl, rfl⟩⟩
  | completed r =>
    exact ⟨rfl, rfl, rfl, rfl, fun r2 _ => ⟨rfl, rfl⟩,
      fun h => UnpackOutcome.noConfusion h⟩

/-- C8 (witness): the completed (failed) record of `envF` carries the
aggregate and sample count; the timed-out record of `envT` carries the
error classification. -/
theorem c8_witness :
    (run_single_benchmark "img" 3 envF).lookup "peak_metrics" =
      some (TrialVal.metrics (analyze_stats envF.statsData)) ∧
    (run_single_benchmark "img" 3 envF).lookup "raw_stats_count" =
      some (TrialVal.num ((envF.statsData.length : ℕ) : ℚ)) ∧
    (run_single_benchmark "img" 4 envT).lookup "error" =
      some (TrialVal.str "timeout") := by
  have h1 := (c8_trial_record_fields "img" 3 envF).2.2.2.2.1
    { returncode := 1, stdout := "", stderr := "boom" } rfl
  have h2 := (c8_trial_record_fields "img" 4 envT).2.2.2.2.2 rfl
  exact ⟨h1.1, h1.2, h2.2.2⟩

/-! ### C9: exporter skip behaviour -/

theorem exportColumns_fst (files : List ReportFile) :
    (exportColumns files).1 = files.filterMap (fun f => (extract_basic_stats f).1) := by
  induction files with
  | nil => rfl
  | cons f rest ih =>
    simp only [exportColumns, List.filterMap_cons]
    cases hf : (extract_basic_stats f).1 with
    | none => simp [hf, ih]
    | some r => simp [hf, ih]

theorem exportColumns_snd (files : List ReportFile) :
    (exportColumns files).2 = (files.map (fun f => (extract_basic_stats f).2)).flatten := by
  induction files with
  | nil => rfl
  | cons f rest ih => simp [exportColumns, ih]

theorem exportColumns_append (pre post : List ReportFile) :
    exportColumns (pre ++ post) =
      ((exportColumns pre).1 ++ (exportColumns post).1,
        (exportColumns pre).2 ++ (exportColumns post).2) := by
  induction pre with
  | nil => simp [exportColumns]
  | cons f rest ih => simp [exportColumns, ih]

/-- C9 (counterexample): a parsed report all of whose trials failed is
skipped with NO diagnostic message (the `if not successful_runs` early
return prints nothing), contradicting the claim that such reports are
skipped with a diagnostic. -/
theorem c9_counterexample :
    extract_basic_stats (ReportFile.parsed allFailedReport) = (none, []) := rfl

/-- C9 (amended): a report that fails to parse is skipped WITH a
diagnostic and contributes no column; a parsed report with zero
successful trials is skipped silently (no diagnostic) and contributes no
column; every other report contributes exactly its own column and no
diagnostic; the per-file results concatenate, so skipping one file never
affects the export of the others. -/
theorem c9_exporter_skips (files : List ReportFile) :
    (∀ name, extract_basic_stats (ReportFile.malformed name) =
      (none, ["Error processing " ++ name])) ∧
    (∀ d, (d.runs.filter (fun r => r.success)).isEmpty = true →
      extract_basic_stats (ReportFile.parsed d) = (none, [])) ∧
    (∀ d, (d.runs.filter (fun r => r.success)).isEmpty = false →
      (extract_basic_stats (ReportFile.parsed d)).1.isSome = true ∧
      (extract_basic_stats (ReportFile.parsed d)).2 = []) ∧
    (exportColumns files).1 = files.filterMap (fun f => (extract_basic_stats f).1) ∧
    (exportColumns files).2 = (files.map (fun f => (extract_basic_stats f).2)).flatten ∧
    (∀ pre post, exportColumns (pre ++ post) =
      ((exportColumns pre).1 ++ (exportColumns post).1,
        (exportColumns pre).2 ++ (exportColumns post).2)) := by
  refine ⟨fun name => rfl, ?_, ?_, exportColumns_fst files, exportColumns_snd files,
    fun pre post => exportColumns_append pre post⟩
  · intro d h
    simp [extract_basic_stats, h]
  · intro d h
    simp [extract_basic_stats, h]

/-- C9 (witness): over one malformed file, one all-failed report and one
well-formed report, the export emits exactly one column (the well-formed
report's) and exactly one diagnostic (the malformed file's). -/
theorem c9_witness :
    extract_basic_stats (ReportFile.malformed "bad.json") =
      (none, ["Error processing bad.json"]) ∧
    (extract_basic_stats (ReportFile.parsed goodReport)).1.isSome = true ∧
    (extract_basic_stats (ReportFile.parsed allFailedReport)).1 = none ∧
    (exportColumns cFiles).1.length = 1 ∧
    (exportColumns cFiles).2 = ["Error processing bad.json"] := by
  have h := c9_exporter_skips cFiles
  refine ⟨?_, ?_, ?_, ?_, ?_⟩
  · exact h.1 "bad.json"
  · exact (h.2.2.1 goodReport (by decide)).1
  · rw [h.2.1 allFailedReport (by decide)]
  · rw [h.2.2.2.1]
    rfl
  · rw [h.2.2.2.2.1]
    rfl

end UnpackBench
